import Mathlib

/-!
# Verification of the moltbot Webex channel plugin

Shallow embedding of the message-ingestion core of the Webex channel
plugin (files `extensions/webex/src/inbound.ts`, `monitor.ts`, `send.ts`,
`probe.ts`, `token.ts`) together with proofs about its access-policy
gate, normalizer, polling watermark, webhook lifecycle and outbound
addressing.

Conventions of the embedding:
* TypeScript optional fields (`x?: T`, values that may be `undefined`)
  become `Option T`.
* JavaScript `a || b` on strings (empty string is falsy) becomes
  `jsStringOr`; on numbers (0 is falsy) becomes `jsNumOr`.
* Timestamps (`Date.getTime()` milliseconds) become `Nat`.
* `async` calls that can throw become explicit `Except String` inputs;
  `try/catch` becomes pattern matching on those inputs.
-/

/-- JS `a || b` for an optional string: the empty string is falsy.
Used for TS expressions like `parsed.text || parsed.markdown || ""`. -/
def jsStringOr (a : Option String) (b : String) : String :=
  match a with
  | some s => if s = "" then b else s
  | none => b

/-- JS `a || b` for an optional number: `0` is falsy.
Used for `lastMessageTimeByRoom.get(room.id) || pollStartTime`. -/
def jsNumOr (a : Option Nat) (b : Nat) : Nat :=
  match a with
  | some v => if v = 0 then b else v
  | none => b

/-- Character-wise "starts with" (JS `String.prototype.startsWith`),
stated on the character lists so that it evaluates by `decide`. -/
def strStartsWith (tag s : String) : Bool :=
  tag.data.isPrefixOf s.data

/-- Character containment (JS `to.includes("@")` for a one-character
needle). -/
def strContainsChar (s : String) (c : Char) : Bool :=
  s.data.contains c

/-- Drops the first `n` characters (JS `slice`), stated on the
character list so that it evaluates by `decide`. -/
def strDrop (s : String) (n : Nat) : String :=
  String.mk (s.data.drop n)

/-- Removes leading and trailing whitespace
(JS `String.prototype.trim`), stated on the character list so that it
evaluates by `decide`. -/
def strTrim (s : String) : String :=
  String.mk
    (((s.data.dropWhile Char.isWhitespace).reverse.dropWhile
      Char.isWhitespace).reverse)

/-- Case-insensitive "starts with", modelling a JS regex
`^<tag>` with the `i` flag where `<tag>` holds no metacharacters. -/
def ciStartsWith (tag s : String) : Bool :=
  (tag.data.map Char.toLower).isPrefixOf (s.data.map Char.toLower)

/-- Embeds `s.replace(/^<tag>/i, "")` for a literal tag: drop the tag when it
is a case-insensitive head of `s`, otherwise leave `s` unchanged. -/
def ciStripLeading (tag s : String) : String :=
  if ciStartsWith tag s then strDrop s tag.length else s

/-- The two-state room classification of `inbound.ts`
(`roomType: "direct" | "group"`). -/
inductive RoomType
  | direct
  | group
deriving DecidableEq, Repr

/-- The `data` part of a Webex webhook envelope
(`WebexWebhookEvent.data` in `inbound.ts`, lines 19-27); every field
except `id` is optional in the TS type. `created` is a timestamp. -/
structure WebexEventData where
  id : String
  roomId : Option String
  roomType : Option String
  personId : Option String
  personEmail : Option String
  mentionedPeople : Option (List String)
  created : Option Nat
deriving DecidableEq, Repr

/-- A Webex webhook push event (`WebexWebhookEvent` in `inbound.ts`);
only the fields the ingestion code reads are modelled. -/
structure WebexWebhookEvent where
  resource : String
  event : String
  data : WebexEventData
deriving DecidableEq, Repr

/-- The projection of a full message detail (`GET /messages/{id}`
result, or the polled message itself) that `parseWebexWebhookEvent`
reads: `fullMessage?.text`, `fullMessage?.markdown`,
`fullMessage?.files`. -/
structure FullMessage where
  text : Option String
  markdown : Option String
  files : Option (List String)
deriving DecidableEq, Repr

/-- Embeds `ParsedWebexMessage` (`inbound.ts`, lines 30-42). `roomType` is
optional in the TS type even though the parser always fills it. -/
structure ParsedWebexMessage where
  messageId : String
  roomId : Option String
  roomType : Option RoomType
  personId : String
  personEmail : String
  text : Option String
  markdown : Option String
  files : List String
  mentionedPeople : List String
  created : Nat
  isBotMentioned : Bool
deriving DecidableEq, Repr

/-- Embeds `isWebexBotMessage` (`inbound.ts`, lines 47-49):
`event.data.personEmail === botEmail`; an absent `personEmail` is not
`===` to any string. -/
def isWebexBotMessage (event : WebexWebhookEvent) (botEmail : String) : Bool :=
  match event.data.personEmail with
  | some e => e == botEmail
  | none => false

/-- Embeds `wasWebexBotMentioned` (`inbound.ts`, lines 54-57):
`(event.data.mentionedPeople || []).includes(botId)`. -/
def wasWebexBotMentioned (event : WebexWebhookEvent) (botId : String) : Bool :=
  (event.data.mentionedPeople.getD []).contains botId

/-- Embeds `parseWebexWebhookEvent` (`inbound.ts`, lines 62-82). `fullMessage`
is `any` in TS and accessed with `?.`, hence `Option FullMessage`;
`now` stands for `Date.now()` in `new Date(event.data.created || Date.now())`. -/
def parseWebexWebhookEvent (event : WebexWebhookEvent)
    (fullMessage : Option FullMessage) (botId : String) (now : Nat) :
    ParsedWebexMessage :=
  { messageId := event.data.id
    roomId := event.data.roomId
    roomType :=
      some (if event.data.roomType == some "direct" then RoomType.direct
            else RoomType.group)
    personId := event.data.personId.getD ""
    personEmail := event.data.personEmail.getD ""
    text := fullMessage.bind FullMessage.text
    markdown := fullMessage.bind FullMessage.markdown
    files := (fullMessage.bind FullMessage.files).getD []
    mentionedPeople := event.data.mentionedPeople.getD []
    created := event.data.created.getD now
    isBotMentioned := wasWebexBotMentioned event botId }

/-- Embeds `stripWebexBotMention` (`inbound.ts`, lines 89-93):
`text.replace(new RegExp("^@" + botName + "\\s*", "i"), "").trim()`,
with the bot name spliced in as literal characters. Dropping the
matched `@<name>` head and trimming subsumes the greedy `\s*`, since
`trim` removes any remaining leading whitespace. -/
def stripWebexBotMention (text botName : String) : String :=
  let tag := "@" ++ botName
  if ciStartsWith tag text then strTrim (strDrop text tag.length) else strTrim text

/-- Embeds `shouldProcessWebexMessage` (`inbound.ts`, lines 98-113). -/
def shouldProcessWebexMessage (parsed : ParsedWebexMessage)
    (requireMentionInGroups : Bool) : Bool :=
  if parsed.roomType == some RoomType.direct then true
  else if requireMentionInGroups then parsed.isBotMentioned
  else true

/-- The dispatch-text derivation common to both ingestion paths
(`monitor.ts`, lines 120-124 and 340-344):
`let text = parsed.text || parsed.markdown || "";
 if (parsed.isBotMentioned) text = stripWebexBotMention(text, botName);`. -/
def webexDispatchText (parsed : ParsedWebexMessage) (botName : String) : String :=
  let text := jsStringOr parsed.text (jsStringOr parsed.markdown "")
  if parsed.isBotMentioned then stripWebexBotMention text botName else text

/-- A concrete group-room parsed message in which the bot is not
mentioned, for instantiating the gate theorems. -/
def sampleGroupNoMention : ParsedWebexMessage :=
  { messageId := "msg-1"
    roomId := some "room-1"
    roomType := some RoomType.group
    personId := "person-1"
    personEmail := "user@example.com"
    text := some "hello"
    markdown := none
    files := []
    mentionedPeople := []
    created := 1000
    isBotMentioned := false }

/-- C1: the access-policy gate `shouldProcessWebexMessage` implements
exactly the §4.3 decision table: direct rooms always pass; group rooms
pass when mention is not required; group rooms with mention required
pass iff the bot is mentioned. -/
theorem shouldProcess_decision_table (p : ParsedWebexMessage) (r : Bool) :
    (p.roomType = some RoomType.direct → shouldProcessWebexMessage p r = true) ∧
    (p.roomType = some RoomType.group → r = false →
      shouldProcessWebexMessage p r = true) ∧
    (p.roomType = some RoomType.group → r = true → p.isBotMentioned = true →
      shouldProcessWebexMessage p r = true) ∧
    (p.roomType = some RoomType.group → r = true → p.isBotMentioned = false →
      shouldProcessWebexMessage p r = false) := by
  refine ⟨fun h => ?_, fun h hr => ?_, fun h hr hm => ?_, fun h hr hm => ?_⟩
  · simp [shouldProcessWebexMessage, h]
  · simp [shouldProcessWebexMessage, h, hr]
  · simp [shouldProcessWebexMessage, h, hr, hm]
  · simp [shouldProcessWebexMessage, h, hr, hm]

/-- C1 witness: the decision table instantiated on a concrete group
message without a mention, with mention required. -/
theorem shouldProcess_decision_table_witness :
    sampleGroupNoMention.roomType = some RoomType.group ∧
    shouldProcessWebexMessage sampleGroupNoMention true = false :=
  ⟨by decide,
   (shouldProcess_decision_table sampleGroupNoMention true).2.2.2 (by decide)
     rfl (by decide)⟩

/-- A concrete raw webhook event used to instantiate the normalizer
theorems: a group-room message in which the bot is mentioned. -/
def sampleRawEvent : WebexWebhookEvent :=
  { resource := "messages"
    event := "created"
    data :=
      { id := "msg-2"
        roomId := some "room-2"
        roomType := some "group"
        personId := some "person-2"
        personEmail := some "user@example.com"
        mentionedPeople := some ["bot-id-123", "other-id"]
        created := some 5000 } }

/-- C7 counterexample: the normalizer does not default the text fields
to the empty string when the full message detail is absent — it leaves
them absent (`undefined` in TS, `none` here), contradicting the claim
that text fields default to `""`. -/
theorem parse_text_default_counterexample :
    (parseWebexWebhookEvent sampleRawEvent none "bot-id-123" 0).text = none ∧
    (parseWebexWebhookEvent sampleRawEvent none "bot-id-123" 0).text ≠ some "" ∧
    (parseWebexWebhookEvent sampleRawEvent none "bot-id-123" 0).markdown ≠ some "" := by
  refine ⟨rfl, ?_, ?_⟩ <;> decide

/-- C7 amended: `parseWebexWebhookEvent` is total (it is a function);
`isBotMentioned` holds exactly when `botId` is in the raw event's
`mentionedPeople` (absent list treated as empty); `roomType` is
`direct` exactly when the raw value is the literal `"direct"` and
`group` otherwise; `personId`/`personEmail` default to `""` and
`files` to `[]`; but `text` and `markdown` are passed through
unchanged from the full message detail, remaining absent (not `""`)
when it lacks them. -/
theorem parse_normalizer_spec (ev : WebexWebhookEvent) (fm : Option FullMessage)
    (botId : String) (now : Nat) :
    ((parseWebexWebhookEvent ev fm botId now).isBotMentioned = true ↔
      botId ∈ ev.data.mentionedPeople.getD []) ∧
    ((parseWebexWebhookEvent ev fm botId now).roomType = some RoomType.direct ↔
      ev.data.roomType = some "direct") ∧
    (ev.data.roomType ≠ some "direct" →
      (parseWebexWebhookEvent ev fm botId now).roomType = some RoomType.group) ∧
    ((parseWebexWebhookEvent ev fm botId now).personId = ev.data.personId.getD "") ∧
    ((parseWebexWebhookEvent ev fm botId now).personEmail = ev.data.personEmail.getD "") ∧
    ((parseWebexWebhookEvent ev fm botId now).files =
      (fm.bind FullMessage.files).getD []) ∧
    ((parseWebexWebhookEvent ev fm botId now).text = fm.bind FullMessage.text) ∧
    ((parseWebexWebhookEvent ev fm botId now).markdown = fm.bind FullMessage.markdown) ∧
    (fm = none → (parseWebexWebhookEvent ev fm botId now).text = none ∧
      (parseWebexWebhookEvent ev fm botId now).markdown = none) := by
  refine ⟨?_, ?_, ?_, rfl, rfl, rfl, rfl, rfl, ?_⟩
  · simp [parseWebexWebhookEvent, wasWebexBotMentioned]
  · by_cases h : ev.data.roomType = some "direct" <;>
      simp [parseWebexWebhookEvent, h]
  · intro h
    simp [parseWebexWebhookEvent, h]
  · intro h
    subst h
    exact ⟨rfl, rfl⟩

/-- C7 witness: the amended normalizer properties instantiated on a
concrete event with a mentioned bot and an absent full message. -/
theorem parse_normalizer_spec_witness :
    ((parseWebexWebhookEvent sampleRawEvent none "bot-id-123" 0).isBotMentioned = true ↔
      "bot-id-123" ∈ sampleRawEvent.data.mentionedPeople.getD []) ∧
    ((parseWebexWebhookEvent sampleRawEvent none "bot-id-123" 0).text = none ∧
      (parseWebexWebhookEvent sampleRawEvent none "bot-id-123" 0).markdown = none) :=
  ⟨(parse_normalizer_spec sampleRawEvent none "bot-id-123" 0).1,
   (parse_normalizer_spec sampleRawEvent none "bot-id-123" 0).2.2.2.2.2.2.2.2 rfl⟩

/-- A concrete parsed message whose text carries a leading bot
mention, for instantiating the dispatch-text theorems. -/
def sampleMentioned : ParsedWebexMessage :=
  { messageId := "msg-3"
    roomId := some "room-3"
    roomType := some RoomType.group
    personId := "person-3"
    personEmail := "user@example.com"
    text := some "@Bot hello"
    markdown := none
    files := []
    mentionedPeople := ["bot-id-123"]
    created := 7000
    isBotMentioned := true }

/-- C9: on both ingestion paths the text handed to dispatch is
`text` if non-empty, else `markdown`, else `""`; then, only when the
bot was mentioned, a single leading `@<botName>` tag (matched
case-insensitively) is removed and the result trimmed; without a
mention the text passes through unchanged, and with a mention but no
leading tag only the trim applies. -/
theorem dispatch_text_spec (p : ParsedWebexMessage) (botName : String) :
    (∀ s, p.text = some s → s ≠ "" →
      jsStringOr p.text (jsStringOr p.markdown "") = s) ∧
    (∀ m, (p.text = none ∨ p.text = some "") → p.markdown = some m → m ≠ "" →
      jsStringOr p.text (jsStringOr p.markdown "") = m) ∧
    ((p.text = none ∨ p.text = some "") → (p.markdown = none ∨ p.markdown = some "") →
      jsStringOr p.text (jsStringOr p.markdown "") = "") ∧
    (p.isBotMentioned = false →
      webexDispatchText p botName = jsStringOr p.text (jsStringOr p.markdown "")) ∧
    (p.isBotMentioned = true →
      ciStartsWith ("@" ++ botName) (jsStringOr p.text (jsStringOr p.markdown "")) = true →
      webexDispatchText p botName =
        strTrim (strDrop (jsStringOr p.text (jsStringOr p.markdown ""))
          ("@" ++ botName).length)) ∧
    (p.isBotMentioned = true →
      ciStartsWith ("@" ++ botName) (jsStringOr p.text (jsStringOr p.markdown "")) = false →
      webexDispatchText p botName =
        strTrim (jsStringOr p.text (jsStringOr p.markdown ""))) := by
  refine ⟨?_, ?_, ?_, ?_, ?_, ?_⟩
  · intro s hs hne
    simp [jsStringOr, hs, hne]
  · intro m ht hm hne
    rcases ht with h | h <;> simp [jsStringOr, h, hm, hne]
  · intro ht hm
    rcases ht with h | h <;> rcases hm with h2 | h2 <;> simp [jsStringOr, h, h2]
  · intro h
    simp [webexDispatchText, h]
  · intro h hci
    simp [webexDispatchText, h, stripWebexBotMention, hci]
  · intro h hci
    simp [webexDispatchText, h, stripWebexBotMention, hci]

/-- C9 witness: the dispatch-text derivation instantiated on a message
carrying a leading `@Bot` mention. -/
theorem dispatch_text_spec_witness :
    ciStartsWith ("@" ++ "Bot")
      (jsStringOr sampleMentioned.text (jsStringOr sampleMentioned.markdown "")) = true ∧
    webexDispatchText sampleMentioned "Bot" =
      strTrim (strDrop (jsStringOr sampleMentioned.text
        (jsStringOr sampleMentioned.markdown "")) ("@" ++ "Bot").length) :=
  ⟨by decide, (dispatch_text_spec sampleMentioned "Bot").2.2.2.2.1 rfl (by decide)⟩

/-- Embeds the fields of `WebexMessage` (`api.ts`, lines 23-36) that
the polling loop reads; `created` is the `Date.getTime()` value of the
message's creation timestamp. -/
structure WebexMessage where
  id : String
  roomId : String
  roomType : String
  text : Option String
  markdown : Option String
  files : Option (List String)
  personId : String
  personEmail : String
  created : Nat
  mentionedPeople : Option (List String)
deriving DecidableEq, Repr

/-- The synthetic webhook-shaped event the polling loop builds from a
polled message (`monitor.ts`, lines 314-326). -/
def pollEventOfMessage (m : WebexMessage) : WebexWebhookEvent :=
  { resource := "messages"
    event := "created"
    data :=
      { id := m.id
        roomId := some m.roomId
        roomType := some m.roomType
        personId := some m.personId
        personEmail := some m.personEmail
        mentionedPeople := m.mentionedPeople
        created := some m.created } }

/-- The full-message view of a polled message: the polling loop passes
the polled message itself as `fullMessage` (`monitor.ts`, line 328). -/
def WebexMessage.toFull (m : WebexMessage) : FullMessage :=
  { text := m.text, markdown := m.markdown, files := m.files }

/-- Result of processing one room inside one polling tick:
the room's final `lastMessageTimeByRoom` entry, the messages handed to
dispatch in dispatch order, and the successive values written to the
room's map entry. -/
structure PollOutcome where
  store : Option Nat
  dispatched : List WebexMessage
  writes : List Nat
deriving DecidableEq, Repr

/-- Embeds the per-room message loop of `pollMessages` (`monitor.ts`,
lines 294-437). `lastTime` is the value read once at line 282 before
the loop and never re-read; `store` is the room's current
`lastMessageTimeByRoom` entry; the list is processed in the given
order (the caller passes `[...items].reverse()`). `dispatchFails`
models an exception thrown while dispatching a message: the room-level
`catch` (line 438) then abandons the rest of the room's messages, and
the write at line 436 does not happen for that message. -/
def pollRoom (botEmail botId : String) (req : Bool) (dispatchFails : String → Bool)
    (lastTime : Nat) (store : Option Nat) : List WebexMessage → PollOutcome
  | [] => { store := store, dispatched := [], writes := [] }
  | m :: rest =>
    if m.created ≤ lastTime then
      pollRoom botEmail botId req dispatchFails lastTime store rest
    else if m.personEmail == botEmail then
      let o := pollRoom botEmail botId req dispatchFails lastTime
        (some (max lastTime m.created)) rest
      { o with writes := max lastTime m.created :: o.writes }
    else if shouldProcessWebexMessage
        (parseWebexWebhookEvent (pollEventOfMessage m) (some m.toFull) botId 0) req then
      if dispatchFails m.id then
        { store := store, dispatched := [], writes := [] }
      else
        let o := pollRoom botEmail botId req dispatchFails lastTime
          (some (max lastTime m.created)) rest
        { o with dispatched := m :: o.dispatched,
                 writes := max lastTime m.created :: o.writes }
    else
      let o := pollRoom botEmail botId req dispatchFails lastTime
        (some (max lastTime m.created)) rest
      { o with writes := max lastTime m.created :: o.writes }

/-- One room's processing within one tick (`monitor.ts`,
lines 282-294): read the watermark (`get(room.id) || pollStartTime`,
JS `||` treating a stored 0 as unset), then process the fetched items
reversed (`[...items].reverse()`, oldest first when the API returned
newest first). -/
def pollRoomTick (botEmail botId : String) (req : Bool)
    (dispatchFails : String → Bool) (pollStartTime : Nat) (store : Option Nat)
    (items : List WebexMessage) : PollOutcome :=
  pollRoom botEmail botId req dispatchFails (jsNumOr store pollStartTime) store
    items.reverse

/-- Characterization of the messages the per-room loop dispatches:
newer than the watermark read at room start, not the bot's own, and
passing the access-policy gate. -/
def pollDispatchable (botEmail botId : String) (req : Bool) (lastTime : Nat)
    (m : WebexMessage) : Bool :=
  decide (lastTime < m.created) && !(m.personEmail == botEmail) &&
    shouldProcessWebexMessage
      (parseWebexWebhookEvent (pollEventOfMessage m) (some m.toFull) botId 0) req

/-- The value the loop writes for one message: nothing for a
duplicate (`createdAt <= lastTime`), otherwise
`Math.max(lastTime, messageTime)` — identical at all three write
sites (`monitor.ts`, lines 306, 336, 436). -/
def pollWriteValue (lastTime : Nat) (m : WebexMessage) : Option Nat :=
  if m.created ≤ lastTime then none else some (max lastTime m.created)

/-- With no dispatch failure, the dispatched messages are exactly the
dispatchable ones, in processing order. -/
theorem pollRoom_dispatched_eq (e b : String) (r : Bool) (f : String → Bool)
    (lt : Nat) :
    ∀ (l : List WebexMessage) (s : Option Nat), (∀ m ∈ l, f m.id = false) →
      (pollRoom e b r f lt s l).dispatched = l.filter (pollDispatchable e b r lt) := by
  intro l
  induction l with
  | nil => intro s _; rfl
  | cons m rest ih =>
    intro s hf
    have hm : f m.id = false := hf m (by simp)
    have hrest : ∀ m' ∈ rest, f m'.id = false := fun m' h' => hf m' (by simp [h'])
    by_cases h1 : m.created ≤ lt
    · simp [pollRoom, h1, pollDispatchable, Nat.not_lt.mpr h1, ih _ hrest,
        List.filter]
    · cases h2 : (m.personEmail == e) with
      | true =>
        simp [pollRoom, h1, h2, pollDispatchable, ih _ hrest, List.filter]
      | false =>
        cases h3 : shouldProcessWebexMessage
            (parseWebexWebhookEvent (pollEventOfMessage m) (some m.toFull) b 0) r with
        | true =>
          simp [pollRoom, h1, h2, h3, hm, pollDispatchable, Nat.lt_of_not_le h1,
            ih _ hrest, List.filter]
        | false =>
          simp [pollRoom, h1, h2, h3, pollDispatchable, ih _ hrest, List.filter]

/-- With no dispatch failure, the values written to the room's map
entry are exactly `pollWriteValue` of each message, in processing
order: every non-duplicate message writes
`max lastTime m.created`. -/
theorem pollRoom_writes_eq (e b : String) (r : Bool) (f : String → Bool)
    (lt : Nat) :
    ∀ (l : List WebexMessage) (s : Option Nat), (∀ m ∈ l, f m.id = false) →
      (pollRoom e b r f lt s l).writes = l.filterMap (pollWriteValue lt) := by
  intro l
  induction l with
  | nil => intro s _; rfl
  | cons m rest ih =>
    intro s hf
    have hm : f m.id = false := hf m (by simp)
    have hrest : ∀ m' ∈ rest, f m'.id = false := fun m' h' => hf m' (by simp [h'])
    by_cases h1 : m.created ≤ lt
    · simp [pollRoom, h1, pollWriteValue, ih _ hrest]
    · cases h2 : (m.personEmail == e) with
      | true => simp [pollRoom, h1, h2, pollWriteValue, ih _ hrest]
      | false =>
        cases h3 : shouldProcessWebexMessage
            (parseWebexWebhookEvent (pollEventOfMessage m) (some m.toFull) b 0) r with
        | true => simp [pollRoom, h1, h2, h3, hm, pollWriteValue, ih _ hrest]
        | false => simp [pollRoom, h1, h2, h3, pollWriteValue, ih _ hrest]

/-- The room's final map entry is either untouched or of the form
`max lastTime t`: every write in the loop is `Math.max(lastTime, t)`
with `lastTime` the value read at room start. Holds with no hypotheses
on ordering or dispatch outcomes. -/
theorem pollRoom_store_shape (e b : String) (r : Bool) (f : String → Bool)
    (lt : Nat) :
    ∀ (l : List WebexMessage) (s : Option Nat),
      (pollRoom e b r f lt s l).store = s ∨
        ∃ t, (pollRoom e b r f lt s l).store = some (max lt t) := by
  intro l
  induction l with
  | nil => intro s; exact Or.inl rfl
  | cons m rest ih =>
    intro s
    by_cases h1 : m.created ≤ lt
    · simpa [pollRoom, h1] using ih s
    · cases h2 : (m.personEmail == e) with
      | true =>
        rcases ih (some (max lt m.created)) with h | ⟨t, h⟩
        · exact Or.inr ⟨m.created, by simp [pollRoom, h1, h2, h]⟩
        · exact Or.inr ⟨t, by simp [pollRoom, h1, h2, h]⟩
      | false =>
        cases h3 : shouldProcessWebexMessage
            (parseWebexWebhookEvent (pollEventOfMessage m) (some m.toFull) b 0) r with
        | true =>
          cases h4 : f m.id with
          | true => exact Or.inl (by simp [pollRoom, h1, h2, h3, h4])
          | false =>
            rcases ih (some (max lt m.created)) with h | ⟨t, h⟩
            · exact Or.inr ⟨m.created, by simp [pollRoom, h1, h2, h3, h4, h]⟩
            · exact Or.inr ⟨t, by simp [pollRoom, h1, h2, h3, h4, h]⟩
        | false =>
          rcases ih (some (max lt m.created)) with h | ⟨t, h⟩
          · exact Or.inr ⟨m.created, by simp [pollRoom, h1, h2, h3, h]⟩
          · exact Or.inr ⟨t, by simp [pollRoom, h1, h2, h3, h]⟩

/-- C3: within one polling tick and one room — with the API returning
messages newest first and no dispatch failure — the messages are
processed and dispatched in chronological order (oldest `created`
first); a message with `createdAt <= lastSeenAt` is skipped and never
dispatched; and every non-duplicate message (dispatched, gated-out, or
the bot's own) writes `max(lastSeenAt, createdAt)` to the room's
watermark entry. -/
theorem polling_room_order_spec (e b : String) (r : Bool) (f : String → Bool)
    (pollStart : Nat) (store : Option Nat) (items : List WebexMessage)
    (hnf : ∀ m ∈ items, f m.id = false)
    (hsorted : items.Pairwise (fun a c => c.created ≤ a.created)) :
    (pollRoomTick e b r f pollStart store items).dispatched =
      items.reverse.filter (pollDispatchable e b r (jsNumOr store pollStart)) ∧
    (pollRoomTick e b r f pollStart store items).dispatched.Pairwise
      (fun a c => a.created ≤ c.created) ∧
    (∀ m ∈ items, m.created ≤ jsNumOr store pollStart →
      m ∉ (pollRoomTick e b r f pollStart store items).dispatched) ∧
    (pollRoomTick e b r f pollStart store items).writes =
      items.reverse.filterMap (pollWriteValue (jsNumOr store pollStart)) := by
  have hnf' : ∀ m ∈ items.reverse, f m.id = false := fun m hm =>
    hnf m (List.mem_reverse.mp hm)
  have hd := pollRoom_dispatched_eq e b r f (jsNumOr store pollStart)
    items.reverse store hnf'
  have hw := pollRoom_writes_eq e b r f (jsNumOr store pollStart)
    items.reverse store hnf'
  have hrev : items.reverse.Pairwise (fun a c => a.created ≤ c.created) :=
    List.pairwise_reverse.mpr hsorted
  refine ⟨hd, ?_, ?_, hw⟩
  · have : (pollRoomTick e b r f pollStart store items).dispatched =
        items.reverse.filter (pollDispatchable e b r (jsNumOr store pollStart)) := hd
    rw [this]
    exact hrev.sublist (List.filter_sublist _)
  · intro m _ hle hmem
    have : (pollRoomTick e b r f pollStart store items).dispatched =
        items.reverse.filter (pollDispatchable e b r (jsNumOr store pollStart)) := hd
    rw [this] at hmem
    have hdis := (List.mem_filter.mp hmem).2
    simp only [pollDispatchable, Bool.and_eq_true, decide_eq_true_eq] at hdis
    exact absurd hdis.1.1 (Nat.not_lt.mpr hle)

/-- A polled user message created at time `t`, for the concrete
polling scenarios. -/
def userMsgAt (idStr : String) (t : Nat) : WebexMessage :=
  { id := idStr
    roomId := "room-r"
    roomType := "group"
    text := some "hello"
    markdown := none
    files := none
    personId := "person-u"
    personEmail := "user@example.com"
    created := t
    mentionedPeople := none }

/-- C3 witness: spec example 3 — a room with three messages at t=1,2,3
fetched newest first and a zero watermark: the theorem instantiated
there, with its hypotheses discharged. -/
theorem polling_room_order_spec_witness :
    List.Pairwise (fun a c => c.created ≤ a.created)
      [userMsgAt "m3" 3, userMsgAt "m2" 2, userMsgAt "m1" 1] ∧
    ((pollRoomTick "bot@webex.bot" "bot-id" false (fun _ => false) 0 none
        [userMsgAt "m3" 3, userMsgAt "m2" 2, userMsgAt "m1" 1]).dispatched =
      [userMsgAt "m3" 3, userMsgAt "m2" 2, userMsgAt "m1" 1].reverse.filter
        (pollDispatchable "bot@webex.bot" "bot-id" false (jsNumOr none 0)) ∧
    (pollRoomTick "bot@webex.bot" "bot-id" false (fun _ => false) 0 none
        [userMsgAt "m3" 3, userMsgAt "m2" 2, userMsgAt "m1" 1]).dispatched.Pairwise
      (fun a c => a.created ≤ c.created) ∧
    (∀ m ∈ [userMsgAt "m3" 3, userMsgAt "m2" 2, userMsgAt "m1" 1],
      m.created ≤ jsNumOr none 0 →
      m ∉ (pollRoomTick "bot@webex.bot" "bot-id" false (fun _ => false) 0 none
        [userMsgAt "m3" 3, userMsgAt "m2" 2, userMsgAt "m1" 1]).dispatched) ∧
    (pollRoomTick "bot@webex.bot" "bot-id" false (fun _ => false) 0 none
        [userMsgAt "m3" 3, userMsgAt "m2" 2, userMsgAt "m1" 1]).writes =
      [userMsgAt "m3" 3, userMsgAt "m2" 2, userMsgAt "m1" 1].reverse.filterMap
        (pollWriteValue (jsNumOr none 0))) :=
  ⟨by decide,
   polling_room_order_spec "bot@webex.bot" "bot-id" false (fun _ => false) 0 none
     [userMsgAt "m3" 3, userMsgAt "m2" 2, userMsgAt "m1" 1]
     (fun _ _ => rfl) (by decide)⟩

/-- The per-room progress of one polling tick, as an interruptible
process: `lastTime` is `none` until the tick has performed the read of
`lastMessageTimeByRoom.get(room.id) || pollStartTime` (`monitor.ts`,
line 282); `pending` are the messages it has yet to process. Each
pending message's effect on the shared entry is `pollWriteValue`
(certified against the full loop by `pollRoom_writes_eq`). -/
structure TickState where
  lastTime : Option Nat
  pending : List WebexMessage
deriving DecidableEq, Repr

/-- One scheduler step of a tick against the shared watermark entry:
first the read (the tick's `lastTime` is fixed from the shared entry),
then one message processed per step, writing `pollWriteValue` computed
from the tick's own `lastTime` — not from the current shared value,
exactly as in `monitor.ts` (the loop never re-reads the map). -/
def tickStep (pollStart : Nat) (store : Option Nat) (t : TickState) :
    Option Nat × TickState :=
  match t.lastTime with
  | none => (store, { t with lastTime := some (jsNumOr store pollStart) })
  | some lt =>
    match t.pending with
    | [] => (store, t)
    | m :: rest =>
      (match pollWriteValue lt m with
        | some v => some v
        | none => store,
       { t with pending := rest })

/-- Runs two overlapping ticks `a` and `b` on the same room under a
schedule: `true` steps tick `a`, `false` steps tick `b`; the shared
watermark entry is threaded through. -/
def runTicks (pollStart : Nat) : List Bool → Option Nat → TickState → TickState →
    Option Nat × TickState × TickState
  | [], store, a, b => (store, a, b)
  | c :: cs, store, a, b =>
    if c then
      let p := tickStep pollStart store a
      runTicks pollStart cs p.1 p.2 b
    else
      let p := tickStep pollStart store b
      runTicks pollStart cs p.1 a p.2

/-- C2 counterexample: two overlapping ticks on the same room, tick A
holding a message created at 5 and tick B one created at 10. Under the
schedule "A reads, B reads, B writes, B's tick is not re-scheduled,
A writes", both ticks complete, the entry momentarily holds 10, and
the final stored value is 5 — strictly less than 10, the maximum
`createdAt` seen by either tick. The watermark both regresses and ends
below the maximum, refuting the claim. -/
theorem watermark_race_counterexample :
    (runTicks 0 [true, false, false] none
        { lastTime := none, pending := [userMsgAt "mA" 5] }
        { lastTime := none, pending := [userMsgAt "mB" 10] }).1 = some 10 ∧
    (runTicks 0 [true, false, false, true] none
        { lastTime := none, pending := [userMsgAt "mA" 5] }
        { lastTime := none, pending := [userMsgAt "mB" 10] }).1 = some 5 ∧
    (runTicks 0 [true, false, false, true] none
        { lastTime := none, pending := [userMsgAt "mA" 5] }
        { lastTime := none, pending := [userMsgAt "mB" 10] }).2.1.pending = [] ∧
    (runTicks 0 [true, false, false, true] none
        { lastTime := none, pending := [userMsgAt "mA" 5] }
        { lastTime := none, pending := [userMsgAt "mB" 10] }).2.2.pending = [] ∧
    (userMsgAt "mB" 10).created = 10 ∧ (5 : Nat) < 10 := by
  decide

/-- Sequential (non-overlapping) polling ticks on one room: each tick
runs to completion on the stored entry before the next starts. -/
def sequentialPollTicks (e b : String) (r : Bool) (f : String → Bool)
    (pollStart : Nat) : List (List WebexMessage) → Option Nat → Option Nat
  | [], s => s
  | items :: rest, s =>
    sequentialPollTicks e b r f pollStart rest
      (pollRoomTick e b r f pollStart s items).store

/-- C2 amended: per room, the polling watermark is monotonically
non-decreasing across any sequence of ticks that do not overlap: each
tick leaves the stored entry either untouched or raised to some
`max(lastTime, t)`, never lowered. (Under overlapping interleaved
ticks the guarantee fails — see the counterexample — because each tick
writes `max` of its own stale read, losing the other tick's update.) -/
theorem watermark_monotone_sequential (e b : String) (r : Bool)
    (f : String → Bool) (pollStart : Nat) :
    ∀ (ticks : List (List WebexMessage)) (v : Nat),
      ∃ v', sequentialPollTicks e b r f pollStart ticks (some v) = some v' ∧
        v ≤ v' := by
  intro ticks
  induction ticks with
  | nil => intro v; exact ⟨v, rfl, Nat.le_refl v⟩
  | cons items rest ih =>
    intro v
    rcases pollRoom_store_shape e b r f (jsNumOr (some v) pollStart)
        items.reverse (some v) with h | ⟨t, h⟩
    · have hstep : (pollRoomTick e b r f pollStart (some v) items).store = some v := h
      obtain ⟨v', hv', hle⟩ := ih v
      exact ⟨v', by simp [sequentialPollTicks, hstep, hv'], hle⟩
    · have hstep : (pollRoomTick e b r f pollStart (some v) items).store =
          some (max (jsNumOr (some v) pollStart) t) := h
      have hv : v ≤ max (jsNumOr (some v) pollStart) t := by
        by_cases hv0 : v = 0
        · simp [hv0]
        · have : jsNumOr (some v) pollStart = v := by simp [jsNumOr, hv0]
          calc v ≤ jsNumOr (some v) pollStart := Nat.le_of_eq this.symm
            _ ≤ max (jsNumOr (some v) pollStart) t := Nat.le_max_left _ _
      obtain ⟨v', hv', hle⟩ := ih (max (jsNumOr (some v) pollStart) t)
      exact ⟨v', by simp [sequentialPollTicks, hstep, hv'], Nat.le_trans hv hle⟩

/-- Embeds the fields of `WebexWebhook` (`api.ts`, lines 49-59) that
registration matches on. -/
structure WebhookInfo where
  id : String
  targetUrl : String
  resource : String
  event : String
deriving DecidableEq, Repr

/-- Outcome of the startup registration block. -/
inductive RegistrationOutcome
  | reused (id : String)
  | created (id : String)
  | failed
deriving DecidableEq, Repr

/-- Embeds the webhook registration block (`monitor.ts`,
lines 231-255): list existing subscriptions (can throw), reuse one
matching `(targetUrl, resource === "messages")`, otherwise create a
new one (can throw); any throw is caught and logged as a warning in
every mode. -/
def registerWebhook (listResult : Except String (List WebhookInfo))
    (webhookUrl : String) (createResult : Except String String) :
    RegistrationOutcome :=
  match listResult with
  | .error _ => RegistrationOutcome.failed
  | .ok items =>
    match items.find? (fun wh =>
        wh.targetUrl == webhookUrl && wh.resource == "messages") with
    | some wh => RegistrationOutcome.reused wh.id
    | none =>
      match createResult with
      | .ok newId => RegistrationOutcome.created newId
      | .error _ => RegistrationOutcome.failed

/-- The value of the `webhookId` variable after the registration block
(`monitor.ts`, lines 239 and 249): it is set on BOTH the reuse and the
create path. -/
def webhookIdAfter : RegistrationOutcome → Option String
  | RegistrationOutcome.reused i => some i
  | RegistrationOutcome.created i => some i
  | RegistrationOutcome.failed => none

/-- Whether this process created the remote subscription (only the
create path did). -/
def selfCreated : RegistrationOutcome → Bool
  | RegistrationOutcome.created _ => true
  | _ => false

/-- Externally visible actions of the `shutdown` closure. -/
inductive ShutdownStep
  | stopPolling
  | deleteWebhook (id : String)
  | logDeleteFailure (msg : String)
  | stopServer
deriving DecidableEq, Repr

/-- Embeds `shutdown` (`monitor.ts`, lines 471-502): clear the polling
interval if set, delete the webhook whenever `webhookId` is set
(tolerating a deletion failure with a warning), then close the
server if it was started. -/
def shutdownTrace (pollingActive : Bool) (webhookId : Option String)
    (deleteResult : Except String Unit) (serverRunning : Bool) :
    List ShutdownStep :=
  (if pollingActive then [ShutdownStep.stopPolling] else []) ++
  (match webhookId with
   | some i =>
     ShutdownStep.deleteWebhook i ::
       (match deleteResult with
        | .ok _ => []
        | .error e => [ShutdownStep.logDeleteFailure e])
   | none => []) ++
  (if serverRunning then [ShutdownStep.stopServer] else [])

/-- A pre-existing remote subscription that matches the configured
target URL on the `messages` resource. -/
def preexistingWebhook : WebhookInfo :=
  { id := "wh-pre"
    targetUrl := "https://example.com/webex/webhook"
    resource := "messages"
    event := "created" }

/-- C4: evaluation at the failing input. A subscription that
pre-existed at startup is reused — `selfCreated` is false — yet
`webhookId` is set to its id, and shutdown deletes whenever
`webhookId` is set, so the merely-reused subscription IS deleted,
contradicting the claim (and the code's own comment "Delete webhook if
we created it"). Deletion-failure tolerance does hold: with a failing
delete, shutdown still logs and closes the server. -/
theorem reused_webhook_deleted_at_shutdown :
    registerWebhook (.ok [preexistingWebhook]) "https://example.com/webex/webhook"
      (.error "create never reached") = RegistrationOutcome.reused "wh-pre" ∧
    selfCreated (RegistrationOutcome.reused "wh-pre") = false ∧
    ShutdownStep.deleteWebhook "wh-pre" ∈
      shutdownTrace true (webhookIdAfter (RegistrationOutcome.reused "wh-pre"))
        (.ok ()) true ∧
    ShutdownStep.stopServer ∈
      shutdownTrace true (some "wh-pre") (.error "delete failed") true ∧
    ShutdownStep.logDeleteFailure "delete failed" ∈
      shutdownTrace true (some "wh-pre") (.error "delete failed") true := by
  refine ⟨rfl, rfl, ?_, ?_, ?_⟩ <;> decide

/-- The ingestion mode (`monitor.ts`, line 49). -/
inductive WebexMode
  | webhook
  | polling
  | both
deriving DecidableEq, Repr

/-- Observable outcome of the startup sequence of
`monitorWebexProvider` around the webhook block. `ready` means the
monitor proceeded past the block to start polling (if enabled), attach
the abort handler, and return its working shutdown/mode result; the
degenerate early return on a server-start failure in webhook-only mode
is `ready = false`. -/
structure StartupOutcome where
  ready : Bool
  serverListening : Bool
  pollingActive : Bool
  registrationWarned : Bool
  registrationAborted : Bool
deriving DecidableEq, Repr

/-- Embeds the startup control flow of `monitorWebexProvider`
(`monitor.ts`, lines 83-84, 224-264, 267): webhook enabled in
`webhook`/`both` modes, polling in `polling`/`both`; if the server
starts, registration runs and a registration failure is caught with a
warning in EVERY mode (inner catch, lines 252-255) and execution
continues; only a server-start failure (outer catch, lines 257-263)
ends startup early in webhook-only mode — and even then by a plain
return, not a registration error. -/
def monitorStartup (mode : WebexMode) (listenOk : Bool)
    (registration : RegistrationOutcome) : StartupOutcome :=
  let enableWebhook := mode == WebexMode.webhook || mode == WebexMode.both
  let enablePolling := mode == WebexMode.polling || mode == WebexMode.both
  if enableWebhook then
    if listenOk then
      { ready := true
        serverListening := true
        pollingActive := enablePolling
        registrationWarned := registration == RegistrationOutcome.failed
        registrationAborted := false }
    else if mode == WebexMode.webhook then
      { ready := false
        serverListening := false
        pollingActive := false
        registrationWarned := false
        registrationAborted := false }
    else
      { ready := true
        serverListening := false
        pollingActive := enablePolling
        registrationWarned := false
        registrationAborted := false }
  else
    { ready := true
      serverListening := false
      pollingActive := enablePolling
      registrationWarned := false
      registrationAborted := false }

/-- C5 counterexample: in webhook-only mode with a working HTTP server
but failing registration, startup does NOT abort: the monitor proceeds
as ready with the server listening and only a warning — the claim says
startup aborts with a registration error. -/
theorem webhookonly_registration_failure_counterexample :
    (monitorStartup WebexMode.webhook true RegistrationOutcome.failed).ready = true ∧
    (monitorStartup WebexMode.webhook true
      RegistrationOutcome.failed).registrationAborted = false ∧
    (monitorStartup WebexMode.webhook true
      RegistrationOutcome.failed).serverListening = true ∧
    (monitorStartup WebexMode.webhook true
      RegistrationOutcome.failed).registrationWarned = true := by
  decide

/-- C5 amended: webhook registration failure is non-fatal in EVERY
mode: whenever the HTTP server starts, the monitor proceeds as ready
with no registration abort, warns on failure, and in combined mode
keeps polling active; only a server-start failure in webhook-only mode
ends startup early — still without a registration error. -/
theorem registration_failure_nonfatal (mode : WebexMode)
    (reg : RegistrationOutcome) :
    (monitorStartup mode true reg).ready = true ∧
    (monitorStartup mode true reg).registrationAborted = false ∧
    (reg = RegistrationOutcome.failed →
      mode ≠ WebexMode.polling →
      (monitorStartup mode true reg).registrationWarned = true) ∧
    (mode = WebexMode.both → (monitorStartup mode true reg).pollingActive = true) ∧
    (monitorStartup WebexMode.webhook false reg).ready = false ∧
    (monitorStartup WebexMode.webhook false reg).registrationAborted = false := by
  cases mode <;> cases reg <;> simp [monitorStartup]

/-- C5 witness: combined mode with failing registration — ready,
polling fallback active. -/
theorem registration_failure_nonfatal_witness :
    (monitorStartup WebexMode.both true RegistrationOutcome.failed).ready = true ∧
    (monitorStartup WebexMode.both true
      RegistrationOutcome.failed).registrationWarned = true ∧
    (monitorStartup WebexMode.both true
      RegistrationOutcome.failed).pollingActive = true :=
  ⟨(registration_failure_nonfatal WebexMode.both RegistrationOutcome.failed).1,
   (registration_failure_nonfatal WebexMode.both
     RegistrationOutcome.failed).2.2.1 rfl (by decide),
   (registration_failure_nonfatal WebexMode.both
     RegistrationOutcome.failed).2.2.2.1 rfl⟩

/-- Externally visible actions of the webhook POST handler, in
execution order. -/
inductive HandlerStep
  | ack (status : Nat)
  | dispatch (messageId : String)
  | logErr (msg : String)
deriving DecidableEq, Repr

/-- Embeds the webhook POST handler (`monitor.ts`, lines 87-216) as
the ordered trace of its externally visible actions. The
`res.status(200).send("OK")` acknowledgment (line 92) is the first
action, before the resource/event filter (line 95), the self-message
filter (line 100), the full-message fetch (line 106, can throw —
`fetchResult`), the gate (line 115), and the dispatch (line 191, can
throw — `dispatchResult`); the surrounding `try/catch`
(lines 88, 213-215) turns any throw in the asynchronous phase into a
logged error rather than a crash, and cannot retract the response
already sent. -/
def webhookHandlerTrace (ev : WebexWebhookEvent) (botEmail botId : String)
    (req : Bool) (now : Nat) (fetchResult : Except String FullMessage)
    (dispatchResult : Except String Unit) : List HandlerStep :=
  HandlerStep.ack 200 ::
    (if ev.resource != "messages" || ev.event != "created" then []
     else if isWebexBotMessage ev botEmail then []
     else
       match fetchResult with
       | .error e => [HandlerStep.logErr e]
       | .ok fm =>
         if !shouldProcessWebexMessage
             (parseWebexWebhookEvent ev (some fm) botId now) req then []
         else
           match dispatchResult with
           | .ok _ =>
             [HandlerStep.dispatch (parseWebexWebhookEvent ev (some fm) botId now).messageId]
           | .error e =>
             [HandlerStep.dispatch (parseWebexWebhookEvent ev (some fm) botId now).messageId,
              HandlerStep.logErr e])

/-- C6: for every inbound POST the 200 acknowledgment is the
handler's first action, whatever the fetch and dispatch outcomes; an
event that is not a `messages`/`created` event yields nothing beyond
the acknowledgment — no dispatch and no failure; a throw while
fetching the full message is caught and logged, leaving the
acknowledgment in place; and a throw while dispatching likewise ends
in a caught, logged error. -/
theorem webhook_ack_first_spec (ev : WebexWebhookEvent) (botEmail botId : String)
    (req : Bool) (now : Nat) (fetchResult : Except String FullMessage)
    (dispatchResult : Except String Unit) :
    (webhookHandlerTrace ev botEmail botId req now fetchResult
      dispatchResult).head? = some (HandlerStep.ack 200) ∧
    (ev.resource ≠ "messages" ∨ ev.event ≠ "created" →
      webhookHandlerTrace ev botEmail botId req now fetchResult dispatchResult =
        [HandlerStep.ack 200]) ∧
    (∀ e, ev.resource = "messages" → ev.event = "created" →
      isWebexBotMessage ev botEmail = false → fetchResult = .error e →
      webhookHandlerTrace ev botEmail botId req now fetchResult dispatchResult =
        [HandlerStep.ack 200, HandlerStep.logErr e]) ∧
    (∀ fm e, ev.resource = "messages" → ev.event = "created" →
      isWebexBotMessage ev botEmail = false → fetchResult = .ok fm →
      shouldProcessWebexMessage (parseWebexWebhookEvent ev (some fm) botId now)
        req = true →
      dispatchResult = .error e →
      webhookHandlerTrace ev botEmail botId req now fetchResult dispatchResult =
        [HandlerStep.ack 200,
         HandlerStep.dispatch (parseWebexWebhookEvent ev (some fm) botId now).messageId,
         HandlerStep.logErr e]) := by
  refine ⟨rfl, ?_, ?_, ?_⟩
  · intro h
    rcases h with h | h <;> simp [webhookHandlerTrace, h]
  · intro e h1 h2 h3 hf
    simp [webhookHandlerTrace, h1, h2, h3, hf]
  · intro fm e h1 h2 h3 hf hg hd
    simp [webhookHandlerTrace, h1, h2, h3, hf, hg, hd]

/-- A push event for a non-message resource (for example a membership
change), used to instantiate the handler theorem. -/
def sampleMembershipEvent : WebexWebhookEvent :=
  { resource := "memberships"
    event := "created"
    data :=
      { id := "ev-9"
        roomId := some "room-9"
        roomType := some "group"
        personId := some "person-9"
        personEmail := some "user@example.com"
        mentionedPeople := none
        created := some 9000 } }

/-- C6 witness: a non-`messages` event is acknowledged with 200 and
produces no further action, whatever the (never-consulted) fetch and
dispatch outcomes. -/
theorem webhook_ack_first_spec_witness :
    sampleMembershipEvent.resource ≠ "messages" ∧
    webhookHandlerTrace sampleMembershipEvent "bot@webex.bot" "bot-id" true 0
      (.error "unreachable") (.ok ()) = [HandlerStep.ack 200] :=
  ⟨by decide,
   (webhook_ack_first_spec sampleMembershipEvent "bot@webex.bot" "bot-id" true 0
     (.error "unreachable") (.ok ())).2.1 (Or.inl (by decide))⟩

/-- Embeds `resolveWebexCredentials` (`token.ts`): trim the
`WEBEX_BOT_TOKEN` environment value and return it when non-empty,
else trim the config-file `botToken` and return it when non-empty,
else nothing. Inputs are `Option` because both sources may be unset. -/
def resolveWebexCredentials (configToken envToken : Option String) :
    Option String :=
  let e := (envToken.map strTrim).getD ""
  if e ≠ "" then some e
  else
    let c := (configToken.map strTrim).getD ""
    if c ≠ "" then some c else none

/-- Embeds the inline token pick of `probeWebex` (`probe.ts`,
lines 24-26): `const token = botToken || envToken` — the CONFIG token
is consulted first there. -/
def probeWebexToken (configToken envToken : Option String) : Option String :=
  let b := (configToken.map strTrim).getD ""
  if b ≠ "" then some b
  else
    let e := (envToken.map strTrim).getD ""
    if e ≠ "" then some e else none

/-- C8 counterexample: with both sources set and non-empty,
`resolveWebexCredentials` picks the environment token, but
`probeWebex`'s own inline resolution picks the config token — so the
environment source does NOT take precedence wherever the token is
resolved. -/
theorem probe_token_precedence_counterexample :
    resolveWebexCredentials (some "config-token") (some "env-token") =
      some "env-token" ∧
    probeWebexToken (some "config-token") (some "env-token") =
      some "config-token" ∧
    ("config-token" : String) ≠ "env-token" := by
  refine ⟨?_, ?_, ?_⟩ <;> decide

/-- C8 amended: the environment token takes precedence over the
config-file token in `resolveWebexCredentials` — the resolver used by
the monitor, the sender, the channel status and webhook verification —
but `probeWebex`'s inline resolution inverts the precedence, preferring
the config token. -/
theorem token_env_precedence (c e : String) (hc : strTrim c ≠ "")
    (he : strTrim e ≠ "") :
    resolveWebexCredentials (some c) (some e) = some (strTrim e) ∧
    probeWebexToken (some c) (some e) = some (strTrim c) := by
  constructor <;> simp [resolveWebexCredentials, probeWebexToken, hc, he]

/-- C8 witness: the precedence facts at concrete non-empty tokens. -/
theorem token_env_precedence_witness :
    strTrim "config-token" ≠ "" ∧
    resolveWebexCredentials (some "config-token") (some "env-token") =
      some (strTrim "env-token") ∧
    probeWebexToken (some "config-token") (some "env-token") =
      some (strTrim "config-token") :=
  ⟨by decide,
   (token_env_precedence "config-token" "env-token" (by decide) (by decide)).1,
   (token_env_precedence "config-token" "env-token" (by decide) (by decide)).2⟩

/-- The message-creation payload built by `sendMessageWebex`
(`send.ts`, lines 41-49): at most one of the three addressing fields
is filled, the body always travels in `markdown`. -/
structure WebexMessagePayload where
  roomId : Option String
  toPersonId : Option String
  toPersonEmail : Option String
  markdown : String
  files : Option (List String)
deriving DecidableEq, Repr

/-- The Base64 marker of a Webex person ID (`send.ts`, line 55). -/
def webexPersonIdTag : String := "Y2lzY29zcGFyazovL3VzL1BFT1BMRS8"

/-- Embeds the payload construction of `sendMessageWebex` (`send.ts`,
lines 41-68): a target containing `@` is addressed as
`toPersonEmail`; otherwise a target starting with the person-ID Base64
marker or with `person:` is addressed as `toPersonId` with the
`person:` head stripped (case-insensitively); any other target is a
`roomId` with a `room:` head stripped; the body goes into `markdown`;
a non-empty `mediaUrl` becomes the single file attachment. -/
def buildWebexMessagePayload (dest text : String) (mediaUrl : Option String) :
    WebexMessagePayload :=
  let files : Option (List String) :=
    match mediaUrl with
    | some u => if u = "" then none else some [u]
    | none => none
  if strContainsChar dest '@' then
    { roomId := none, toPersonId := none, toPersonEmail := some dest,
      markdown := text, files := files }
  else if strStartsWith webexPersonIdTag dest || strStartsWith "person:" dest then
    { roomId := none, toPersonId := some (ciStripLeading "person:" dest),
      toPersonEmail := none, markdown := text, files := files }
  else
    { roomId := some (ciStripLeading "room:" dest), toPersonId := none,
      toPersonEmail := none, markdown := text, files := files }

/-- C10: every outbound target is classified into exactly one of the
three disjoint addressing fields — `toPersonEmail` when the target
contains `@`, else `toPersonId` (with `person:` stripped) when it
starts with the person-ID Base64 marker or with `person:`, else
`roomId` (with `room:` stripped) — and the body is always sent as
`markdown`. -/
theorem send_target_classification (dest text : String) (mu : Option String) :
    (buildWebexMessagePayload dest text mu).markdown = text ∧
    (((buildWebexMessagePayload dest text mu).toPersonEmail.isSome = true ∧
      (buildWebexMessagePayload dest text mu).toPersonId = none ∧
      (buildWebexMessagePayload dest text mu).roomId = none) ∨
     ((buildWebexMessagePayload dest text mu).toPersonId.isSome = true ∧
      (buildWebexMessagePayload dest text mu).toPersonEmail = none ∧
      (buildWebexMessagePayload dest text mu).roomId = none) ∨
     ((buildWebexMessagePayload dest text mu).roomId.isSome = true ∧
      (buildWebexMessagePayload dest text mu).toPersonEmail = none ∧
      (buildWebexMessagePayload dest text mu).toPersonId = none)) ∧
    (strContainsChar dest '@' = true →
      (buildWebexMessagePayload dest text mu).toPersonEmail = some dest) ∧
    (strContainsChar dest '@' = false →
      (strStartsWith webexPersonIdTag dest || strStartsWith "person:" dest) = true →
      (buildWebexMessagePayload dest text mu).toPersonId =
        some (ciStripLeading "person:" dest)) ∧
    (strContainsChar dest '@' = false →
      (strStartsWith webexPersonIdTag dest || strStartsWith "person:" dest) = false →
      (buildWebexMessagePayload dest text mu).roomId =
        some (ciStripLeading "room:" dest)) := by
  by_cases h1 : strContainsChar dest '@' = true
  · refine ⟨by simp [buildWebexMessagePayload, h1], ?_, ?_, ?_, ?_⟩
    · exact Or.inl (by simp [buildWebexMessagePayload, h1])
    · intro _; simp [buildWebexMessagePayload, h1]
    · intro h _; exact absurd h1 (by simp [h])
    · intro h _; exact absurd h1 (by simp [h])
  · have h1' : strContainsChar dest '@' = false := by
      cases h : strContainsChar dest '@'
      · rfl
      · exact absurd h h1
    by_cases h2 : (strStartsWith webexPersonIdTag dest ||
        strStartsWith "person:" dest) = true
    · refine ⟨by simp [buildWebexMessagePayload, h1', h2], ?_, ?_, ?_, ?_⟩
      · exact Or.inr (Or.inl (by simp [buildWebexMessagePayload, h1', h2]))
      · intro h; exact absurd h (by simp [h1'])
      · intro _ _; simp [buildWebexMessagePayload, h1', h2]
      · intro _ h; exact absurd h2 (by simp [h])
    · have h2' : (strStartsWith webexPersonIdTag dest ||
          strStartsWith "person:" dest) = false := by
        cases h : (strStartsWith webexPersonIdTag dest || strStartsWith "person:" dest)
        · rfl
        · exact absurd h h2
      refine ⟨by simp [buildWebexMessagePayload, h1', h2'], ?_, ?_, ?_, ?_⟩
      · exact Or.inr (Or.inr (by simp [buildWebexMessagePayload, h1', h2']))
      · intro h; exact absurd h (by simp [h1'])
      · intro _ h; exact absurd h (by simp [h2'])
      · intro _ _; simp [buildWebexMessagePayload, h1', h2']

/-- C10 witness: the classification at the concrete target
`"room:general"` — no `@`, no person marker, so it is addressed as a
room with the `room:` head stripped. -/
theorem send_target_classification_witness :
    strContainsChar "room:general" '@' = false ∧
    (buildWebexMessagePayload "room:general" "hi" none).roomId =
      some (ciStripLeading "room:" "room:general") :=
  ⟨by decide,
   (send_target_classification "room:general" "hi" none).2.2.2.2 (by decide)
     (by decide)⟩
